import Mathlib

/-!
Verification of the TourSafe scoring/anomaly service.

The embedding follows the two source files:
* `src/ml/app.py` — the Flask service: module-level model load/train block and
  the two request handlers `predict_safety` and `detect_anomaly`.
* `src/models/safety_score.py` — a standalone module with its own
  `predict_safety` / `detect_anomaly` functions over the same threshold table.

Scores and feature values are modelled as rationals (Python floats carry no
claim-relevant rounding here); the regressor and anomaly detector are
abstracted as functions from a feature row to a prediction, since the model
family is explicitly out of scope. Python exceptions are modelled with
`Except String`.
-/

namespace TourSafe

/-- A JSON value as the handlers see it: either a value that numpy/sklearn can
coerce to a float (modelled by its rational value), or one that fails float
coercion (e.g. a non-numeric string). -/
inductive JVal where
  | num : ℚ → JVal
  | other : String → JVal
deriving DecidableEq, Repr

/-- A request body: a finite JSON object, modelled as a partial map from keys
to values (`request.json` in `app.py` lines 40 and 52). -/
def Body := String → Option JVal

/-- A trained regressor, abstracted as its prediction function on one row:
`regressor.predict(features)[0]` (`app.py` line 42). -/
def Regressor := ℚ × ℚ × ℚ × ℚ → ℚ

/-- A trained anomaly detector, abstracted as its label function on one row:
`anomaly_detector.predict(features)[0]` (`app.py` line 54). The
IsolationForest label convention is `-1` for outliers, `1` otherwise. -/
def AnomalyDetector := ℚ × ℚ × ℚ × ℚ → ℤ

/-- `app.py` line 43:
`color = 'green' if score >= 80 else 'yellow' if score >= 50 else 'red'`. -/
def color (score : ℚ) : String :=
  if score ≥ 80 then "green" else if score ≥ 50 then "yellow" else "red"

/-- `app.py` line 44: `tip = 'Adventure Ready!' if score >= 80 else
'Proceed with Caution' if score >= 50 else 'Reroute Recommended'`. -/
def tip (score : ℚ) : String :=
  if score ≥ 80 then "Adventure Ready!"
  else if score ≥ 50 then "Proceed with Caution"
  else "Reroute Recommended"

/-- C1: the classification of a safety score is exhaustive and exclusive with
the fixed thresholds: for every score `s`, the result is green with tip
"Adventure Ready!" iff `s ≥ 80`, yellow with "Proceed with Caution" iff
`50 ≤ s < 80`, and red with "Reroute Recommended" iff `s < 50`; in particular
`classify 80` is green, `classify 79.999` and `classify 50` are yellow, and
`classify 49.999` is red. -/
theorem classify_thresholds (s : ℚ) :
    ((color s = "green" ∧ tip s = "Adventure Ready!") ↔ 80 ≤ s) ∧
    ((color s = "yellow" ∧ tip s = "Proceed with Caution") ↔ (50 ≤ s ∧ s < 80)) ∧
    ((color s = "red" ∧ tip s = "Reroute Recommended") ↔ s < 50) ∧
    (color 80 = "green" ∧ tip 80 = "Adventure Ready!") ∧
    (color (79999/1000) = "yellow" ∧ tip (79999/1000) = "Proceed with Caution") ∧
    (color 50 = "yellow" ∧ tip 50 = "Proceed with Caution") ∧
    (color (49999/1000) = "red" ∧ tip (49999/1000) = "Reroute Recommended") := by
  refine ⟨?_, ?_, ?_, by norm_num [color, tip], by norm_num [color, tip],
    by norm_num [color, tip], by norm_num [color, tip]⟩ <;>
    rcases le_or_lt 80 s with h80 | h80 <;>
    rcases le_or_lt 50 s with h50 | h50 <;>
    simp [color, tip, h80, h50, not_le.2, le_of_lt] <;> linarith

/-- A dictionary lookup `data[k]`: a missing key raises `KeyError` (modelled
as `Except.error`). -/
def lookupKey (data : Body) (k : String) : Except String JVal :=
  match data k with
  | none => .error ("KeyError: " ++ k)
  | some v => .ok v

/-- `app.py` line 41 / 53:
`np.array([[data['risk'], data['speed'], data['weather'], data['crowd']]])`.
The four lookups happen in this fixed order; any missing key raises. -/
def npRow (data : Body) : Except String (JVal × JVal × JVal × JVal) :=
  match lookupKey data "risk" with
  | .error e => .error e
  | .ok r =>
    match lookupKey data "speed" with
    | .error e => .error e
    | .ok s =>
      match lookupKey data "weather" with
      | .error e => .error e
      | .ok w =>
        match lookupKey data "crowd" with
        | .error e => .error e
        | .ok c => .ok (r, s, w, c)

/-- Float coercion of one JSON value, as sklearn's input check
(`astype(float)`) performs it inside `predict`: numeric-coercible values
yield their number, anything else raises. -/
def coerceFloat : JVal → Except String ℚ
  | .num q => .ok q
  | .other v => .error ("could not convert string to float: " ++ v)

/-- Coercion of the assembled row to the numeric feature vector, in the same
fixed field order risk, speed, weather, crowd. -/
def coerceRow : JVal × JVal × JVal × JVal → Except String (ℚ × ℚ × ℚ × ℚ)
  | (r, s, w, c) =>
    match coerceFloat r with
    | .error e => .error e
    | .ok r2 =>
      match coerceFloat s with
      | .error e => .error e
      | .ok s2 =>
        match coerceFloat w with
        | .error e => .error e
        | .ok w2 =>
          match coerceFloat c with
          | .error e => .error e
          | .ok c2 => .ok (r2, s2, w2, c2)

/-- The feature-vector builder of the spec: assemble the row from the body,
then coerce it to numbers. This is the composition the handlers run before
calling a model. -/
def buildFeatures (data : Body) : Except String (ℚ × ℚ × ℚ × ℚ) :=
  match npRow data with
  | .error e => .error e
  | .ok row => coerceRow row

/-- The `/predict-safety` JSON response together with its HTTP status
(Flask default 200 on the success path, explicit 500 on the error path). -/
structure PredictResponse where
  error : Option String
  score : ℚ
  color : String
  tip : String
  status : ℕ
deriving DecidableEq, Repr

/-- The body of the `try` block of `predict_safety` (`app.py` lines 40–45):
build the features, predict, classify, and shape the success response. -/
def predictSafetyPipeline (reg : Regressor) (data : Body) :
    Except String PredictResponse :=
  match buildFeatures data with
  | .error e => .error e
  | .ok fv =>
    let score := reg fv
    .ok { error := none, score := score, color := color score,
          tip := tip score, status := 200 }

/-- The `predict_safety` handler (`app.py` lines 38–47): any exception from
the pipeline is caught and turned into the fixed fail-open payload with
status 500 (line 47). -/
def predict_safety (reg : Regressor) (data : Body) : PredictResponse :=
  match predictSafetyPipeline reg data with
  | .ok r => r
  | .error e =>
    { error := some e, score := 85, color := "green",
      tip := "Adventure Ready!", status := 500 }

/-- The `/detect-anomaly` JSON response together with its HTTP status. -/
structure AnomalyResponse where
  error : Option String
  anomaly : Bool
  status : ℕ
deriving DecidableEq, Repr

/-- The body of the `try` block of `detect_anomaly` (`app.py` lines 52–55):
build the features, predict the label, and map label `-1` to `true`
(`anomaly == -1`). -/
def detectAnomalyPipeline (det : AnomalyDetector) (data : Body) :
    Except String AnomalyResponse :=
  match buildFeatures data with
  | .error e => .error e
  | .ok fv =>
    let anomaly := det fv
    .ok { error := none, anomaly := decide (anomaly = -1), status := 200 }

/-- The `detect_anomaly` handler (`app.py` lines 50–57). On a pipeline
exception the `except` block itself evaluates `data['risk'] > 0.8`: if the
raw body has a numeric `risk` the fallback payload is returned with 500; a
missing `risk` raises `KeyError` and a non-numeric one raises `TypeError`,
and either exception propagates out of the handler (outer `Except.error`). -/
def detect_anomaly (det : AnomalyDetector) (data : Body) :
    Except String AnomalyResponse :=
  match detectAnomalyPipeline det data with
  | .ok r => .ok r
  | .error e =>
    match data "risk" with
    | some (.num r) =>
      .ok { error := some e, anomaly := decide (r > 4/5), status := 500 }
    | some (.other v) =>
      .error ("TypeError: '>' not supported between instances of str and float: " ++ v)
    | none => .error "KeyError: risk"

/-- Evaluation lemma: when all four keys are present and numeric-coercible,
the feature builder returns exactly the four values in the fixed order. -/
theorem buildFeatures_ok_of_nums (data : Body) (r s w c : ℚ)
    (hr : data "risk" = some (.num r)) (hs : data "speed" = some (.num s))
    (hw : data "weather" = some (.num w)) (hc : data "crowd" = some (.num c)) :
    buildFeatures data = .ok (r, s, w, c) := by
  simp [buildFeatures, npRow, lookupKey, coerceRow, coerceFloat,
    hr, hs, hw, hc]

/-- Evaluation lemma: a missing or non-coercible key makes the feature
builder raise. -/
theorem buildFeatures_error_of_bad (data : Body)
    (h : data "risk" = none ∨ data "speed" = none ∨ data "weather" = none ∨
      data "crowd" = none ∨ (∃ v, data "risk" = some (.other v)) ∨
      (∃ v, data "speed" = some (.other v)) ∨
      (∃ v, data "weather" = some (.other v)) ∨
      (∃ v, data "crowd" = some (.other v))) :
    ∃ e, buildFeatures data = .error e := by
  rcases hr : data "risk" with _ | (q1 | v1) <;>
  rcases hs : data "speed" with _ | (q2 | v2) <;>
  rcases hw : data "weather" with _ | (q3 | v3) <;>
  rcases hc : data "crowd" with _ | (q4 | v4) <;>
    simp_all [buildFeatures, npRow, lookupKey, coerceRow, coerceFloat]

/-- Evaluation lemma: the success shape of the predict pipeline. -/
theorem predictSafetyPipeline_ok (reg : Regressor) (data : Body)
    (fv : ℚ × ℚ × ℚ × ℚ) (h : buildFeatures data = .ok fv) :
    predictSafetyPipeline reg data =
      .ok { error := none, score := reg fv, color := color (reg fv),
            tip := tip (reg fv), status := 200 } := by
  simp [predictSafetyPipeline, h]

/-- Evaluation lemma: a feature-builder exception aborts the predict
pipeline with the same exception. -/
theorem predictSafetyPipeline_error (reg : Regressor) (data : Body)
    (e : String) (h : buildFeatures data = .error e) :
    predictSafetyPipeline reg data = .error e := by
  simp [predictSafetyPipeline, h]

/-- Evaluation lemma: the success shape of the anomaly pipeline. -/
theorem detectAnomalyPipeline_ok (det : AnomalyDetector) (data : Body)
    (fv : ℚ × ℚ × ℚ × ℚ) (h : buildFeatures data = .ok fv) :
    detectAnomalyPipeline det data =
      .ok { error := none, anomaly := decide (det fv = -1), status := 200 } := by
  simp [detectAnomalyPipeline, h]

/-- Evaluation lemma: a feature-builder exception aborts the anomaly
pipeline with the same exception. -/
theorem detectAnomalyPipeline_error (det : AnomalyDetector) (data : Body)
    (e : String) (h : buildFeatures data = .error e) :
    detectAnomalyPipeline det data = .error e := by
  simp [detectAnomalyPipeline, h]

/-- A complete body with an out-of-range risk value, for concrete runs. -/
def bodyFull : Body := fun k =>
  if k = "risk" then some (.num 2)
  else if k = "speed" then some (.num (1/2))
  else if k = "weather" then some (.num (1/2))
  else if k = "crowd" then some (.num (1/2))
  else none

/-- `bodyFull` with an extra irrelevant key: same feature vector, different
body. -/
def bodyFullExtra : Body := fun k =>
  if k = "junk" then some (.other "x") else bodyFull k

/-- A body missing the `weather` key. -/
def bodyNoWeather : Body := fun k =>
  if k = "risk" then some (.num (1/2))
  else if k = "speed" then some (.num (1/2))
  else if k = "crowd" then some (.num (1/2))
  else none

/-- C8: the feature vector builder assembles the four inputs into a single
vector in exactly the fixed order risk, speed, weather, crowd; it fails
whenever any of the four keys is absent or not numeric-coercible; and no
range clamping is applied — the values pass through unchanged, so
out-of-`[0,1]` values are preserved. -/
theorem buildFeatures_spec (data : Body) :
    (∀ r s w c : ℚ, data "risk" = some (.num r) → data "speed" = some (.num s) →
      data "weather" = some (.num w) → data "crowd" = some (.num c) →
      buildFeatures data = .ok (r, s, w, c)) ∧
    ((data "risk" = none ∨ data "speed" = none ∨ data "weather" = none ∨
      data "crowd" = none ∨ (∃ v, data "risk" = some (.other v)) ∨
      (∃ v, data "speed" = some (.other v)) ∨
      (∃ v, data "weather" = some (.other v)) ∨
      (∃ v, data "crowd" = some (.other v))) →
      ∃ e, buildFeatures data = .error e) :=
  ⟨fun r s w c hr hs hw hc => buildFeatures_ok_of_nums data r s w c hr hs hw hc,
   fun h => buildFeatures_error_of_bad data h⟩

/-- Witness for C8: on a concrete body whose risk is 2 (outside `[0,1]`),
the builder returns the vector in order with the value unclamped. -/
theorem buildFeatures_spec_witness :
    buildFeatures bodyFull = .ok (2, 1/2, 1/2, 1/2) :=
  (buildFeatures_spec bodyFull).1 2 (1/2) (1/2) (1/2) rfl rfl rfl rfl

/-- C2: if any stage of the `/predict-safety` pipeline fails, the handler
does not propagate the exception but returns status 500 with exactly the
payload `{error, score: 85, color: "green", tip: "Adventure Ready!"}`; in
particular a body missing the `weather` key yields this fixed fail-open
payload plus an error field. -/
theorem predict_safety_fail_open (reg : Regressor) (data : Body) :
    (∀ e, predictSafetyPipeline reg data = .error e →
      predict_safety reg data =
        { error := some e, score := 85, color := "green",
          tip := "Adventure Ready!", status := 500 }) ∧
    (data "weather" = none →
      ∃ e, predict_safety reg data =
        { error := some e, score := 85, color := "green",
          tip := "Adventure Ready!", status := 500 }) := by
  constructor
  · intro e h
    simp [predict_safety, h]
  · intro hw
    obtain ⟨e, he⟩ := buildFeatures_error_of_bad data (by tauto)
    exact ⟨e, by simp [predict_safety, predictSafetyPipeline_error reg data e he]⟩

/-- Witness for C2: the concrete body missing `weather` gets the fixed
fail-open payload. -/
theorem predict_safety_fail_open_witness :
    ∃ e, predict_safety (fun _ => 90) bodyNoWeather =
      { error := some e, score := 85, color := "green",
        tip := "Adventure Ready!", status := 500 } :=
  (predict_safety_fail_open (fun _ => 90) bodyNoWeather).2 rfl

/-- C7: given a fixed trained regressor, scoring is deterministic — two
calls of the `/predict-safety` pipeline on identical feature vectors produce
the same score and hence the same `{score, color, tip}` response; the
response is a pure function of the feature vector, with no internal
randomness at inference time. -/
theorem predict_safety_deterministic (reg : Regressor) (b1 b2 : Body)
    (fv : ℚ × ℚ × ℚ × ℚ)
    (h1 : buildFeatures b1 = .ok fv) (h2 : buildFeatures b2 = .ok fv) :
    predict_safety reg b1 = predict_safety reg b2 ∧
    (predict_safety reg b1).score = reg fv := by
  have e1 := predictSafetyPipeline_ok reg b1 fv h1
  have e2 := predictSafetyPipeline_ok reg b2 fv h2
  simp [predict_safety, e1, e2]

/-- Witness for C7: two concretely different bodies with the same feature
vector give the same response. -/
theorem predict_safety_deterministic_witness :
    predict_safety (fun _ => 90) bodyFull = predict_safety (fun _ => 90) bodyFullExtra ∧
    (predict_safety (fun _ => 90) bodyFull).score = 90 :=
  predict_safety_deterministic (fun _ => 90) bodyFull bodyFullExtra
    (2, 1/2, 1/2, 1/2) rfl rfl

/-- C9: every `/predict-safety` response — success or error path — carries a
`(color, tip)` pair that is one of the three fixed consistent pairs and that
equals the classification of the score it is returned with (the error
payload's score 85 classifies to green/"Adventure Ready!"). -/
theorem predict_safety_color_tip_consistent (reg : Regressor) (data : Body) :
    (predict_safety reg data).color = color (predict_safety reg data).score ∧
    (predict_safety reg data).tip = tip (predict_safety reg data).score ∧
    (((predict_safety reg data).color, (predict_safety reg data).tip) =
        ("green", "Adventure Ready!") ∨
      ((predict_safety reg data).color, (predict_safety reg data).tip) =
        ("yellow", "Proceed with Caution") ∨
      ((predict_safety reg data).color, (predict_safety reg data).tip) =
        ("red", "Reroute Recommended")) := by
  rcases hb : buildFeatures data with e | fv
  · have hp := predictSafetyPipeline_error reg data e hb
    refine ⟨?_, ?_, ?_⟩ <;> simp [predict_safety, hp] <;> norm_num [color, tip]
  · have hp := predictSafetyPipeline_ok reg data fv hb
    refine ⟨?_, ?_, ?_⟩ <;> simp [predict_safety, hp]
    rcases le_or_lt 80 (reg fv) with h80 | h80 <;>
      rcases le_or_lt 50 (reg fv) with h50 | h50 <;>
      simp [color, tip, h80, h50, not_le.2]

/-- C4: the anomaly verdict is true iff the model's predicted label is the
outlier label `-1` and false for every other label; the success response is
exactly `{anomaly: <that boolean>}` (no error field, status 200). -/
theorem detect_anomaly_verdict (det : AnomalyDetector) (data : Body)
    (fv : ℚ × ℚ × ℚ × ℚ) (h : buildFeatures data = .ok fv) :
    ∃ b : Bool, detect_anomaly det data =
        .ok { error := none, anomaly := b, status := 200 } ∧
      (b = true ↔ det fv = -1) ∧ (det fv ≠ -1 → b = false) := by
  refine ⟨decide (det fv = -1), ?_, by simp, by simp⟩
  simp [detect_anomaly, detectAnomalyPipeline_ok det data fv h]

/-- Witness for C4: a detector that labels everything `-1` yields
`{anomaly: true}` on a concrete body. -/
theorem detect_anomaly_verdict_witness :
    ∃ b : Bool, detect_anomaly (fun _ => -1) bodyFull =
        .ok { error := none, anomaly := b, status := 200 } ∧
      (b = true ↔ (-1 : ℤ) = -1) ∧ ((-1 : ℤ) ≠ -1 → b = false) :=
  detect_anomaly_verdict (fun _ => -1) bodyFull (2, 1/2, 1/2, 1/2) rfl

/-- C3: when the `/detect-anomaly` pipeline fails, the handler responds with
`{error, anomaly: risk > 0.8}` computed from the raw body's risk field when
that field is available (numeric); otherwise — risk missing or not
comparable to a float — the error propagates out of the handler instead of
a fallback payload being returned. -/
theorem detect_anomaly_fallback (det : AnomalyDetector) (data : Body)
    (e : String) (hfail : detectAnomalyPipeline det data = .error e) :
    (∀ r : ℚ, data "risk" = some (.num r) →
      detect_anomaly det data =
        .ok { error := some e, anomaly := decide (r > 4/5), status := 500 }) ∧
    (data "risk" = none → ∃ e2, detect_anomaly det data = .error e2) ∧
    (∀ v, data "risk" = some (.other v) →
      ∃ e2, detect_anomaly det data = .error e2) := by
  refine ⟨fun r hr => ?_, fun hr => ?_, fun v hr => ?_⟩ <;>
    simp [detect_anomaly, hfail, hr]

/-- Witness for C3: a body missing `weather` but carrying `risk = 1/2` gets
the fallback payload with `anomaly = (1/2 > 0.8) = false`. -/
theorem detect_anomaly_fallback_witness :
    detect_anomaly (fun _ => 1) bodyNoWeather =
      .ok { error := some "KeyError: weather",
            anomaly := decide ((1/2 : ℚ) > 4/5), status := 500 } :=
  (detect_anomaly_fallback (fun _ => 1) bodyNoWeather "KeyError: weather"
    rfl).1 (1/2) rfl

namespace safety_score

/-- `safety_score.py` line 94: the same conditional expressions for `color`. -/
def color (score : ℚ) : String :=
  if score ≥ 80 then "green" else if score ≥ 50 then "yellow" else "red"

/-- `safety_score.py` line 95: the same conditional expressions for `tip`. -/
def tip (score : ℚ) : String :=
  if score ≥ 80 then "Adventure Ready!"
  else if score ≥ 50 then "Proceed with Caution"
  else "Reroute Recommended"

/-- `safety_score.py` lines 91–96: `predict_safety(features)` loads the
regressor, predicts, classifies, and returns the
`{score, color, tip}` dictionary (as a triple here). -/
def predict_safety (reg : Regressor) (fv : ℚ × ℚ × ℚ × ℚ) :
    ℚ × String × String :=
  let score := reg fv
  (score, color score, tip score)

/-- `safety_score.py` lines 98–101: `detect_anomaly(features)` loads the
detector, predicts a label, and returns `anomaly == -1`. -/
def detect_anomaly (det : AnomalyDetector) (fv : ℚ × ℚ × ℚ × ℚ) : Bool :=
  let anomaly := det fv
  decide (anomaly = -1)

end safety_score

/-- C10: the two source files implement the same scoring and anomaly
contracts: for every score the `(color, tip)` mapping of `app.py` equals the
one of `safety_score.py`, and on every built feature vector the handlers of
`app.py` return exactly the score/color/tip triple and anomaly boolean that
`safety_score.py`'s functions compute from the same models. -/
theorem modules_agree (reg : Regressor) (det : AnomalyDetector) (data : Body)
    (fv : ℚ × ℚ × ℚ × ℚ) (h : buildFeatures data = .ok fv) :
    (∀ s : ℚ, color s = safety_score.color s ∧ tip s = safety_score.tip s) ∧
    predictSafetyPipeline reg data =
      .ok { error := none, score := (safety_score.predict_safety reg fv).1,
            color := (safety_score.predict_safety reg fv).2.1,
            tip := (safety_score.predict_safety reg fv).2.2, status := 200 } ∧
    detectAnomalyPipeline det data =
      .ok { error := none, anomaly := safety_score.detect_anomaly det fv,
            status := 200 } := by
  refine ⟨fun s => ⟨rfl, rfl⟩, ?_, ?_⟩
  · exact predictSafetyPipeline_ok reg data fv h
  · exact detectAnomalyPipeline_ok det data fv h

/-- Witness for C10: the agreement, evaluated on a concrete body and
constant models. -/
theorem modules_agree_witness :
    (∀ s : ℚ, color s = safety_score.color s ∧ tip s = safety_score.tip s) ∧
    predictSafetyPipeline (fun _ => 90) bodyFull =
      .ok { error := none,
            score := (safety_score.predict_safety (fun _ => 90) (2, 1/2, 1/2, 1/2)).1,
            color := (safety_score.predict_safety (fun _ => 90) (2, 1/2, 1/2, 1/2)).2.1,
            tip := (safety_score.predict_safety (fun _ => 90) (2, 1/2, 1/2, 1/2)).2.2,
            status := 200 } ∧
    detectAnomalyPipeline (fun _ => -1) bodyFull =
      .ok { error := none,
            anomaly := safety_score.detect_anomaly (fun _ => -1) (2, 1/2, 1/2, 1/2),
            status := 200 } := by
  have h1 := modules_agree (fun _ => 90) (fun _ => -1) bodyFull (2, 1/2, 1/2, 1/2) rfl
  have h2 := modules_agree (fun _ => 90) (fun _ => -1) bodyFull (2, 1/2, 1/2, 1/2) rfl
  exact ⟨h1.1, h1.2.1, h2.2.2⟩

/-! ## Model lifecycle at startup (`app.py` lines 11–35) -/

/-- Outcome of one `joblib.load` attempt on a model file: success, file not
found (`FileNotFoundError`), or any other read failure (unreadable file,
corrupt pickle, ...). -/
inductive LoadResult where
  | ok
  | absent
  | failure (msg : String)
deriving DecidableEq, Repr

/-- The filesystem environment the module initialization runs in: what each
load attempt would yield, and whether persisting would fail. -/
structure FS where
  regressorFile : LoadResult
  anomalyFile : LoadResult
  writeFailure : Option String
deriving DecidableEq, Repr

/-- One row of the synthetic feature table (`app.py` lines 17–21). -/
structure Row where
  risk : ℚ
  speed : ℚ
  weather : ℚ
  crowd : ℚ
deriving DecidableEq, Repr, Inhabited

/-- One sample of the synthetic training frame: features plus the integer
`score` target (`app.py` line 22). -/
structure Sample where
  features : Row
  score : ℤ
deriving DecidableEq, Repr, Inhabited

/-- The in-memory regressor artifact: either loaded from disk or fitted on a
training set (`app.py` lines 13 and 28–29). -/
inductive RegModel where
  | loadedFromDisk
  | fitted (train : List Sample)
deriving DecidableEq, Repr

/-- The in-memory anomaly-detector artifact (`app.py` lines 14 and 30–31;
`IsolationForest.fit` sees only the feature columns). -/
inductive AnomModel where
  | loadedFromDisk
  | fitted (train : List Row)
deriving DecidableEq, Repr

/-- A filesystem side effect of the startup block. -/
inductive Effect where
  | loadAttempt (path : String)
  | makedirs (path : String)
  | dump (path : String)
deriving DecidableEq, Repr

def modelsDir : String := "models"

def regressorPath : String := "models/safety_regressor.pkl"

def anomalyPath : String := "models/anomaly_detector.pkl"

/-- `app.py` lines 17–23: the synthetic 100-sample frame. `rand n` is the
n-th draw of `np.random.rand` (the four feature columns are drawn in order
risk, speed, weather, crowd, 100 draws each) and `randint n` the n-th draw
of `np.random.randint(0, 100, 100)`. -/
def mkDataset (rand : ℕ → ℚ) (randint : ℕ → ℤ) : List Sample :=
  (List.range 100).map fun i =>
    { features := { risk := rand i, speed := rand (100 + i),
                    weather := rand (200 + i), crowd := rand (300 + i) },
      score := randint i }

/-- `app.py` line 26: `train_test_split(X, y, test_size=0.2)` keeps a random
80-row subset for training; `perm` gives the shuffled index order chosen by
the library. -/
def trainSplit (perm : ℕ → ℕ) (data : List Sample) : List Sample :=
  (List.range 80).filterMap fun i => data.get? (perm i)

/-- `app.py` lines 16–35, the `except FileNotFoundError` branch: synthesize
the frame, split, fit both models on the training split, `os.makedirs` the
`models` directory (`exist_ok=True`), and dump both artifacts. A write
failure has no handler and propagates. -/
def trainAndPersist (write : Option String) (rand : ℕ → ℚ) (randint : ℕ → ℤ)
    (perm : ℕ → ℕ) (effs : List Effect) :
    Except String (RegModel × AnomModel × List Effect) :=
  let data := mkDataset rand randint
  let train := trainSplit perm data
  match write with
  | some msg => .error msg
  | none =>
    .ok (.fitted train, .fitted (train.map Sample.features),
      effs ++ [.makedirs modelsDir, .dump regressorPath, .dump anomalyPath])

/-- `app.py` lines 12–35: module initialization. Load the regressor, then
the detector; `FileNotFoundError` from either load enters the training
branch; any other load failure has no handler and propagates, aborting
startup. -/
def startup (fs : FS) (rand : ℕ → ℚ) (randint : ℕ → ℤ) (perm : ℕ → ℕ) :
    Except String (RegModel × AnomModel × List Effect) :=
  match fs.regressorFile with
  | .failure msg => .error msg
  | .absent =>
    trainAndPersist fs.writeFailure rand randint perm
      [.loadAttempt regressorPath]
  | .ok =>
    match fs.anomalyFile with
    | .failure msg => .error msg
    | .absent =>
      trainAndPersist fs.writeFailure rand randint perm
        [.loadAttempt regressorPath, .loadAttempt anomalyPath]
    | .ok =>
      .ok (.loadedFromDisk, .loadedFromDisk,
        [.loadAttempt regressorPath, .loadAttempt anomalyPath])

/-- Every row of the training split is a row of the synthesized frame. -/
theorem trainSplit_subset (perm : ℕ → ℕ) (data : List Sample) :
    ∀ x ∈ trainSplit perm data, x ∈ data := by
  intro x hx
  obtain ⟨i, _, hg⟩ := List.mem_filterMap.1 hx
  exact List.get?_mem hg

/-- The training split keeps exactly 80 of the 100 rows. -/
theorem trainSplit_length (perm : ℕ → ℕ) (data : List Sample)
    (hlen : data.length = 100) (hperm : ∀ i, i < 80 → perm i < 100) :
    (trainSplit perm data).length = 80 := by
  have h : ∀ i ∈ List.range 80,
      data.get? (perm i) = some ((data.get? (perm i)).getD default) := by
    intro i hi
    rcases hg : data.get? (perm i) with _ | x
    · rw [List.get?_eq_none] at hg
      have := hperm i (List.mem_range.1 hi)
      omega
    · simp
  unfold trainSplit
  rw [List.filterMap_eq_map_iff_forall_eq_some.2 h]
  simp

/-- The synthesized frame has exactly 100 samples. -/
theorem mkDataset_length (rand : ℕ → ℚ) (randint : ℕ → ℤ) :
    (mkDataset rand randint).length = 100 := by
  simp [mkDataset]

/-- Feature bounds of the synthesized frame, from the `np.random.rand`
contract that every draw lies in `[0,1)`. -/
theorem mkDataset_mem_bounds (rand : ℕ → ℚ) (randint : ℕ → ℤ)
    (hrand : ∀ n, 0 ≤ rand n ∧ rand n < 1) :
    ∀ smp ∈ mkDataset rand randint,
      (0 ≤ smp.features.risk ∧ smp.features.risk < 1) ∧
      (0 ≤ smp.features.speed ∧ smp.features.speed < 1) ∧
      (0 ≤ smp.features.weather ∧ smp.features.weather < 1) ∧
      (0 ≤ smp.features.crowd ∧ smp.features.crowd < 1) := by
  intro smp hs
  obtain ⟨i, hi, rfl⟩ := List.mem_map.1 hs
  exact ⟨hrand i, hrand (100 + i), hrand (200 + i), hrand (300 + i)⟩

/-- C5 (amended): at startup the model store attempts to load the persisted
artifacts, and if either is absent (`FileNotFoundError`) it synthesizes a
training dataset of 100 samples with four uniform-random features in `[0,1)`
and an integer target, fits both models on the random 80-sample training
split of that dataset, persists both to the fixed model files (creating the
parent directory if missing), and returns them to be held in memory for all
subsequent requests. -/
theorem startup_trains_when_absent (fs : FS) (rand : ℕ → ℚ) (randint : ℕ → ℤ)
    (perm : ℕ → ℕ)
    (habs : fs.regressorFile = .absent ∨
      (fs.regressorFile = .ok ∧ fs.anomalyFile = .absent))
    (hwrite : fs.writeFailure = none)
    (hrand : ∀ n, 0 ≤ rand n ∧ rand n < 1)
    (hperm : ∀ i, i < 80 → perm i < 100) :
    ∃ effs,
      startup fs rand randint perm =
        .ok (.fitted (trainSplit perm (mkDataset rand randint)),
             .fitted ((trainSplit perm (mkDataset rand randint)).map
               Sample.features),
             effs) ∧
      (mkDataset rand randint).length = 100 ∧
      (∀ smp ∈ mkDataset rand randint,
        (0 ≤ smp.features.risk ∧ smp.features.risk < 1) ∧
        (0 ≤ smp.features.speed ∧ smp.features.speed < 1) ∧
        (0 ≤ smp.features.weather ∧ smp.features.weather < 1) ∧
        (0 ≤ smp.features.crowd ∧ smp.features.crowd < 1)) ∧
      (∀ smp ∈ trainSplit perm (mkDataset rand randint),
        smp ∈ mkDataset rand randint) ∧
      (trainSplit perm (mkDataset rand randint)).length = 80 ∧
      Effect.loadAttempt regressorPath ∈ effs ∧
      (fs.regressorFile = .ok → Effect.loadAttempt anomalyPath ∈ effs) ∧
      Effect.makedirs modelsDir ∈ effs ∧
      Effect.dump regressorPath ∈ effs ∧
      Effect.dump anomalyPath ∈ effs := by
  obtain ⟨rf, af, wf⟩ := fs
  have hb := mkDataset_mem_bounds rand randint hrand
  have hlen := mkDataset_length rand randint
  have hsub := trainSplit_subset perm (mkDataset rand randint)
  have hl80 := trainSplit_length perm (mkDataset rand randint) hlen hperm
  simp only at hwrite
  subst hwrite
  rcases habs with h | ⟨h1, h2⟩
  · simp only at h
    subst h
    exact ⟨[.loadAttempt regressorPath, .makedirs modelsDir,
        .dump regressorPath, .dump anomalyPath],
      by simp [startup, trainAndPersist], hlen, hb, hsub, hl80,
      by simp, by simp, by simp, by simp, by simp⟩
  · simp only at h1 h2
    subst h1
    subst h2
    exact ⟨[.loadAttempt regressorPath, .loadAttempt anomalyPath,
        .makedirs modelsDir, .dump regressorPath, .dump anomalyPath],
      by simp [startup, trainAndPersist], hlen, hb, hsub, hl80,
      by simp, by simp, by simp, by simp, by simp⟩

/-- Witness for C5: a concrete run with both files absent, constant draws
and the identity shuffle. -/
theorem startup_trains_when_absent_witness :
    ∃ effs,
      startup ⟨.absent, .absent, none⟩ (fun _ => 1/2) (fun _ => 7) id =
        .ok (.fitted (trainSplit id (mkDataset (fun _ => 1/2) (fun _ => 7))),
             .fitted ((trainSplit id (mkDataset (fun _ => 1/2) (fun _ => 7))).map
               Sample.features),
             effs) ∧
      (mkDataset (fun _ => 1/2) (fun _ => 7)).length = 100 ∧
      (∀ smp ∈ mkDataset (fun _ => 1/2) (fun _ => 7),
        (0 ≤ smp.features.risk ∧ smp.features.risk < 1) ∧
        (0 ≤ smp.features.speed ∧ smp.features.speed < 1) ∧
        (0 ≤ smp.features.weather ∧ smp.features.weather < 1) ∧
        (0 ≤ smp.features.crowd ∧ smp.features.crowd < 1)) ∧
      (∀ smp ∈ trainSplit id (mkDataset (fun _ => 1/2) (fun _ => 7)),
        smp ∈ mkDataset (fun _ => 1/2) (fun _ => 7)) ∧
      (trainSplit id (mkDataset (fun _ => 1/2) (fun _ => 7))).length = 80 ∧
      Effect.loadAttempt regressorPath ∈ effs ∧
      ((LoadResult.absent : LoadResult) = .ok →
        Effect.loadAttempt anomalyPath ∈ effs) ∧
      Effect.makedirs modelsDir ∈ effs ∧
      Effect.dump regressorPath ∈ effs ∧
      Effect.dump anomalyPath ∈ effs :=
  startup_trains_when_absent ⟨.absent, .absent, none⟩ (fun _ => 1/2)
    (fun _ => 7) id (Or.inl rfl) rfl (fun n => by norm_num)
    (fun i hi => by simpa using hi.trans (by norm_num))

/-- Counterexample for C5 as stated: the models are not fitted on the whole
synthesized 100-sample dataset. On a concrete run the fitted training set is
the 80-row split, which differs from the full dataset (their lengths are 80
and 100). -/
theorem startup_fit_counterexample :
    ∃ anom effs,
      startup ⟨.absent, .absent, none⟩ (fun _ => 1/2) (fun _ => 7) id =
        .ok (.fitted (trainSplit id (mkDataset (fun _ => 1/2) (fun _ => 7))),
             anom, effs) ∧
      RegModel.fitted (trainSplit id (mkDataset (fun _ => 1/2) (fun _ => 7))) ≠
        RegModel.fitted (mkDataset (fun _ => 1/2) (fun _ => 7)) := by
  refine ⟨.fitted ((trainSplit id (mkDataset (fun _ => 1/2) (fun _ => 7))).map
      Sample.features),
    [.loadAttempt regressorPath, .makedirs modelsDir, .dump regressorPath,
      .dump anomalyPath],
    by simp [startup, trainAndPersist], fun h => ?_⟩
  injection h with h4
  have h3 : (trainSplit id (mkDataset (fun _ => 1/2) (fun _ => 7))).length =
      (mkDataset (fun _ => 1/2) (fun _ => 7)).length := by rw [h4]
  rw [trainSplit_length id _ (mkDataset_length _ _)
    (fun i hi => by simpa using hi.trans (by norm_num)),
    mkDataset_length] at h3
  exact absurd h3 (by norm_num)

/-- C6: a persistence failure at startup that is not mere absence of a model
file — an unreadable or corrupt file on load, or a failure while persisting —
is fatal: the startup code propagates the error instead of masking it by
falling back to training, so no models are produced and the service does not
start serving. -/
theorem startup_failure_fatal (fs : FS) (rand : ℕ → ℚ) (randint : ℕ → ℤ)
    (perm : ℕ → ℕ) (msg : String)
    (h : fs.regressorFile = .failure msg ∨
      (fs.regressorFile = .ok ∧ fs.anomalyFile = .failure msg) ∨
      (fs.writeFailure = some msg ∧ (fs.regressorFile = .absent ∨
        (fs.regressorFile = .ok ∧ fs.anomalyFile = .absent)))) :
    startup fs rand randint perm = .error msg := by
  obtain ⟨rf, af, wf⟩ := fs
  rcases h with h | ⟨h1, h2⟩ | ⟨h1, h2 | ⟨h2, h3⟩⟩ <;>
    simp only at * <;> subst_eqs <;> simp [startup, trainAndPersist]

/-- Witness for C6: a corrupt regressor file aborts startup with its
error. -/
theorem startup_failure_fatal_witness :
    startup ⟨.failure "UnpicklingError: invalid load key", .ok, none⟩
      (fun _ => 1/2) (fun _ => 7) id =
      .error "UnpicklingError: invalid load key" :=
  startup_failure_fatal ⟨.failure "UnpicklingError: invalid load key", .ok, none⟩
    (fun _ => 1/2) (fun _ => 7) id "UnpicklingError: invalid load key"
    (Or.inl rfl)

end TourSafe
